import Mathlib

/-!
# The openfeature evaluation client (`pkg/openfeature/client.go`)

A shallow embedding of the client facade: client identity and hook list, the
`Type` constants, and the eight accessors that delegate to the active
provider and substitute the caller's default when the resolution reports an
error.

The provider is an interface value whose methods may have effects of their
own, so a provider operation is a function of the provider's state `σ`
returning the resolution together with the successor state, and every accessor
threads that state.  `Hook`, `EvaluationContext` and `EvaluationOption` are
declared outside `client.go` and are never inspected by it; they are type
parameters of the development.
-/

namespace openfeature

/-! ## Values -/

/-- Go `float64`, represented by its IEEE-754 binary64 bit pattern.  The client
only copies numbers; it performs no arithmetic or comparison on them. -/
structure float64 where
  bits : Nat
deriving DecidableEq, Repr

/-- Go `interface{}`: a dynamically typed value.  The three scalar types the
typed accessors box into `ResolutionDetail.Value` are kept apart; structured
values are trees of fields and items. -/
inductive Any where
  | nil
  | bool (v : Bool)
  | string (v : String)
  | float64 (v : float64)
  | slice (items : List Any)
  | map (fields : List (String × Any))

/-! ## Provider boundary -/

/-- Modelled from the spec: the `ErrorCode` of a resolution, declared outside
`client.go`.  The spec writes `None` for a resolution without failure and names
`FlagNotFound`, type-mismatch, provider-unavailable and parse-error as examples
of the provider-defined failure codes; `Other` carries any further code. -/
inductive ErrorCode where
  | None
  | FlagNotFound
  | TypeMismatch
  | ProviderUnavailable
  | ParseError
  | Other (code : String)
deriving DecidableEq, Repr

/-- Go `error` as produced by a resolution: a generic error carrying the code
it was derived from.  `Option error` is a possibly-nil `error`. -/
structure error where
  code : ErrorCode
deriving DecidableEq, Repr

/-- Modelled from the spec: `Resolution[T]`, the provider's outcome for one
evaluation (`BoolResolutionDetail`, `StringResolutionDetail`, ... are declared
outside `client.go`): it exposes `.Value : T`, `.ErrorCode`, `.Reason` and
`.Variant`.  Omitted string fields take Go's zero value. -/
structure Resolution (T : Type) where
  Value : T
  ErrorCode : ErrorCode
  Reason : String := ""
  Variant : String := ""

/-- Modelled from the spec: the derived `.Error()` accessor of a resolution,
declared outside `client.go`: non-nil exactly when `ErrorCode` indicates
failure. -/
def Resolution.Error {T : Type} (resolution : Resolution T) : Option error :=
  if resolution.ErrorCode = ErrorCode.None then none
  else some { code := resolution.ErrorCode }

/-- The `ResolutionDetail` embedded in `EvaluationDetails` (lines 122-127): its
`Value` receives a `bool`, `string`, `float64` or `interface{}`. -/
abbrev ResolutionDetail := Resolution Any

/-- Modelled from the spec: the provider interface, declared outside
`client.go`: four operations, one per type, each taking
`(flag, defaultValue, evalCtx, options...)` and returning a resolution.  A
provider operation may have effects, so it also maps the provider's state to
its successor. -/
structure FeatureProvider (σ EvaluationContext EvaluationOption : Type) where
  GetBooleanEvaluation :
    String → Bool → EvaluationContext → List EvaluationOption → σ → Resolution Bool × σ
  GetStringEvaluation :
    String → String → EvaluationContext → List EvaluationOption → σ → Resolution String × σ
  GetNumberEvaluation :
    String → float64 → EvaluationContext → List EvaluationOption → σ → Resolution float64 × σ
  GetObjectEvaluation :
    String → Any → EvaluationContext → List EvaluationOption → σ → Resolution Any × σ

/-- Modelled from the spec: the process-wide holder of the active provider
(`api.provider`), declared outside `client.go`; the accessors receive it as an
explicit argument. -/
structure evaluationAPI (σ EvaluationContext EvaluationOption : Type) where
  provider : FeatureProvider σ EvaluationContext EvaluationOption

/-! ## Client (lines 17-49) -/

/-- The `ClientMetadata` struct (lines 18-20). -/
structure ClientMetadata where
  name : String
deriving DecidableEq, Repr

/-- The method `ClientMetadata.Name` (lines 23-25). -/
def ClientMetadata.Name (cm : ClientMetadata) : String :=
  cm.name

/-- The `Client` struct (lines 28-31); the slice of hooks is the list of its
elements. -/
structure Client (Hook : Type) where
  metadata : ClientMetadata
  hooks : List Hook

/-- The factory `GetClient` (lines 34-39). -/
def GetClient {Hook : Type} (name : String) : Client Hook :=
  { metadata := { name := name }, hooks := [] }

/-- The method `Client.Metadata` (lines 42-44). -/
def Client.Metadata {Hook : Type} (c : Client Hook) : ClientMetadata :=
  c.metadata

/-- The method `Client.AddHooks` (lines 47-49); it has a pointer receiver, so it
yields the updated client. -/
def Client.AddHooks {Hook : Type} (c : Client Hook) (hooks : List Hook) : Client Hook :=
  { c with hooks := c.hooks ++ hooks }

/-! ## Flag types and evaluation details (lines 51-65) -/

/-- The type `Type` (line 52), an `int64`. -/
abbrev Type_ := Int

/-- The constant `Boolean Type = iota` (line 55). -/
def Type_.Boolean : Type_ := 0

/-- The constant `String` (line 56), second of the `iota` block. -/
def Type_.String : Type_ := 1

/-- The constant `Number` (line 57), third of the `iota` block. -/
def Type_.Number : Type_ := 2

/-- The constant `Object` (line 58), fourth of the `iota` block. -/
def Type_.Object : Type_ := 3

/-- The `EvaluationDetails` struct (lines 61-65); the embedded
`ResolutionDetail` is a field of that name. -/
structure EvaluationDetails where
  FlagKey : String
  FlagType : Type_
  ResolutionDetail : ResolutionDetail

/-! ## Simple accessors (lines 67-109) -/

section Accessors

variable {σ Hook EvaluationContext EvaluationOption : Type}

/-- The method `Client.GetBooleanValue` (lines 68-76).  The receiver `c` is passed by
value and the active provider is read from `api`. -/
def Client.GetBooleanValue (api : evaluationAPI σ EvaluationContext EvaluationOption)
    (_c : Client Hook) (flag : String) (defaultValue : Bool) (evalCtx : EvaluationContext)
    (options : List EvaluationOption) (s : σ) : (Bool × Option error) × σ :=
  let call := api.provider.GetBooleanEvaluation flag defaultValue evalCtx options s
  let resolution := call.1
  let value := resolution.Value
  let err := resolution.Error
  let value := if err ≠ none then defaultValue else value
  ((value, err), call.2)

/-- The method `Client.GetStringValue` (lines 79-87).  The receiver `c` is passed by
value and the active provider is read from `api`. -/
def Client.GetStringValue (api : evaluationAPI σ EvaluationContext EvaluationOption)
    (_c : Client Hook) (flag : String) (defaultValue : String) (evalCtx : EvaluationContext)
    (options : List EvaluationOption) (s : σ) : (String × Option error) × σ :=
  let call := api.provider.GetStringEvaluation flag defaultValue evalCtx options s
  let resolution := call.1
  let value := resolution.Value
  let err := resolution.Error
  let value := if err ≠ none then defaultValue else value
  ((value, err), call.2)

/-- The method `Client.GetNumberValue` (lines 90-98).  The receiver `c` is passed by
value and the active provider is read from `api`. -/
def Client.GetNumberValue (api : evaluationAPI σ EvaluationContext EvaluationOption)
    (_c : Client Hook) (flag : String) (defaultValue : float64) (evalCtx : EvaluationContext)
    (options : List EvaluationOption) (s : σ) : (float64 × Option error) × σ :=
  let call := api.provider.GetNumberEvaluation flag defaultValue evalCtx options s
  let resolution := call.1
  let value := resolution.Value
  let err := resolution.Error
  let value := if err ≠ none then defaultValue else value
  ((value, err), call.2)

/-- The method `Client.GetObjectValue` (lines 101-109).  The receiver `c` is passed by
value and the active provider is read from `api`. -/
def Client.GetObjectValue (api : evaluationAPI σ EvaluationContext EvaluationOption)
    (_c : Client Hook) (flag : String) (defaultValue : Any) (evalCtx : EvaluationContext)
    (options : List EvaluationOption) (s : σ) : (Any × Option error) × σ :=
  let call := api.provider.GetObjectEvaluation flag defaultValue evalCtx options s
  let resolution := call.1
  let value := resolution.Value
  let err := resolution.Error
  let value := if err ≠ none then defaultValue else value
  ((value, err), call.2)

/-! ## Detailed accessors (lines 111-190) -/

/-- The method `Client.GetBooleanValueDetails` (lines 112-130); the typed value is
stored in the `interface{}`-typed `Value` field. -/
def Client.GetBooleanValueDetails (api : evaluationAPI σ EvaluationContext EvaluationOption)
    (_c : Client Hook) (flag : String) (defaultValue : Bool) (evalCtx : EvaluationContext)
    (options : List EvaluationOption) (s : σ) : (EvaluationDetails × Option error) × σ :=
  let call := api.provider.GetBooleanEvaluation flag defaultValue evalCtx options s
  let resolution := call.1
  let value := resolution.Value
  let err := resolution.Error
  let value := if err ≠ none then defaultValue else value
  (({ FlagKey := flag
      FlagType := Type_.Boolean
      ResolutionDetail :=
        { Value := Any.bool value
          ErrorCode := resolution.ErrorCode
          Reason := resolution.Reason
          Variant := resolution.Variant } }, err), call.2)

/-- The method `Client.GetStringValueDetails` (lines 133-150); the typed value is
stored in the `interface{}`-typed `Value` field. -/
def Client.GetStringValueDetails (api : evaluationAPI σ EvaluationContext EvaluationOption)
    (_c : Client Hook) (flag : String) (defaultValue : String) (evalCtx : EvaluationContext)
    (options : List EvaluationOption) (s : σ) : (EvaluationDetails × Option error) × σ :=
  let call := api.provider.GetStringEvaluation flag defaultValue evalCtx options s
  let resolution := call.1
  let value := resolution.Value
  let err := resolution.Error
  let value := if err ≠ none then defaultValue else value
  (({ FlagKey := flag
      FlagType := Type_.String
      ResolutionDetail :=
        { Value := Any.string value
          ErrorCode := resolution.ErrorCode
          Reason := resolution.Reason
          Variant := resolution.Variant } }, err), call.2)

/-- The method `Client.GetNumberValueDetails` (lines 153-170); the typed value is
stored in the `interface{}`-typed `Value` field. -/
def Client.GetNumberValueDetails (api : evaluationAPI σ EvaluationContext EvaluationOption)
    (_c : Client Hook) (flag : String) (defaultValue : float64) (evalCtx : EvaluationContext)
    (options : List EvaluationOption) (s : σ) : (EvaluationDetails × Option error) × σ :=
  let call := api.provider.GetNumberEvaluation flag defaultValue evalCtx options s
  let resolution := call.1
  let value := resolution.Value
  let err := resolution.Error
  let value := if err ≠ none then defaultValue else value
  (({ FlagKey := flag
      FlagType := Type_.Number
      ResolutionDetail :=
        { Value := Any.float64 value
          ErrorCode := resolution.ErrorCode
          Reason := resolution.Reason
          Variant := resolution.Variant } }, err), call.2)

/-- The method `Client.GetObjectValueDetails` (lines 173-190); the typed value is
stored in the `interface{}`-typed `Value` field. -/
def Client.GetObjectValueDetails (api : evaluationAPI σ EvaluationContext EvaluationOption)
    (_c : Client Hook) (flag : String) (defaultValue : Any) (evalCtx : EvaluationContext)
    (options : List EvaluationOption) (s : σ) : (EvaluationDetails × Option error) × σ :=
  let call := api.provider.GetObjectEvaluation flag defaultValue evalCtx options s
  let resolution := call.1
  let value := resolution.Value
  let err := resolution.Error
  let value := if err ≠ none then defaultValue else value
  (({ FlagKey := flag
      FlagType := Type_.Object
      ResolutionDetail :=
        { Value := value
          ErrorCode := resolution.ErrorCode
          Reason := resolution.Reason
          Variant := resolution.Variant } }, err), call.2)

/-! ## The method set `IClient` (lines 4-15) -/

/-- One call of a method of `IClient` (lines 5-14) with its arguments. -/
inductive Call (Hook EvaluationContext EvaluationOption : Type) where
  | Metadata
  | AddHooks (hooks : List Hook)
  | GetBooleanValue (flag : String) (defaultValue : Bool) (evalCtx : EvaluationContext)
      (options : List EvaluationOption)
  | GetStringValue (flag : String) (defaultValue : String) (evalCtx : EvaluationContext)
      (options : List EvaluationOption)
  | GetNumberValue (flag : String) (defaultValue : float64) (evalCtx : EvaluationContext)
      (options : List EvaluationOption)
  | GetObjectValue (flag : String) (defaultValue : Any) (evalCtx : EvaluationContext)
      (options : List EvaluationOption)
  | GetBooleanValueDetails (flag : String) (defaultValue : Bool) (evalCtx : EvaluationContext)
      (options : List EvaluationOption)
  | GetStringValueDetails (flag : String) (defaultValue : String) (evalCtx : EvaluationContext)
      (options : List EvaluationOption)
  | GetNumberValueDetails (flag : String) (defaultValue : float64) (evalCtx : EvaluationContext)
      (options : List EvaluationOption)
  | GetObjectValueDetails (flag : String) (defaultValue : Any) (evalCtx : EvaluationContext)
      (options : List EvaluationOption)

/-- The calls that evaluate a flag: the eight `Get*Value` / `Get*ValueDetails`
methods. -/
def Call.isEvaluation : Call Hook EvaluationContext EvaluationOption → Bool
  | .Metadata => false
  | .AddHooks _ => false
  | _ => true

/-- What a call of an `IClient` method hands back to its caller. -/
inductive Return where
  | Metadata (metadata : ClientMetadata)
  | AddHooks
  | Boolean (value : Bool) (err : Option error)
  | String (value : String) (err : Option error)
  | Number (value : float64) (err : Option error)
  | Object (value : Any) (err : Option error)
  | Details (details : EvaluationDetails) (err : Option error)

/-- The state a call runs in: the caller's client variable and the state of the
active provider. -/
structure State (σ Hook : Type) where
  client : Client Hook
  provider : σ

/-- Run one method call on the caller's client.  `AddHooks` has a pointer
receiver (line 47) and stores the updated client; every other method has a
value receiver (lines 42, 68-173), works on a copy of the client and leaves the
caller's client as it was. -/
def Call.run (api : evaluationAPI σ EvaluationContext EvaluationOption)
    (call : Call Hook EvaluationContext EvaluationOption) (st : State σ Hook) :
    Return × State σ Hook :=
  match call with
  | .Metadata => (.Metadata st.client.Metadata, st)
  | .AddHooks hooks => (.AddHooks, { st with client := st.client.AddHooks hooks })
  | .GetBooleanValue flag defaultValue evalCtx options =>
    let r := st.client.GetBooleanValue api flag defaultValue evalCtx options st.provider
    (.Boolean r.1.1 r.1.2, { st with provider := r.2 })
  | .GetStringValue flag defaultValue evalCtx options =>
    let r := st.client.GetStringValue api flag defaultValue evalCtx options st.provider
    (.String r.1.1 r.1.2, { st with provider := r.2 })
  | .GetNumberValue flag defaultValue evalCtx options =>
    let r := st.client.GetNumberValue api flag defaultValue evalCtx options st.provider
    (.Number r.1.1 r.1.2, { st with provider := r.2 })
  | .GetObjectValue flag defaultValue evalCtx options =>
    let r := st.client.GetObjectValue api flag defaultValue evalCtx options st.provider
    (.Object r.1.1 r.1.2, { st with provider := r.2 })
  | .GetBooleanValueDetails flag defaultValue evalCtx options =>
    let r := st.client.GetBooleanValueDetails api flag defaultValue evalCtx options st.provider
    (.Details r.1.1 r.1.2, { st with provider := r.2 })
  | .GetStringValueDetails flag defaultValue evalCtx options =>
    let r := st.client.GetStringValueDetails api flag defaultValue evalCtx options st.provider
    (.Details r.1.1 r.1.2, { st with provider := r.2 })
  | .GetNumberValueDetails flag defaultValue evalCtx options =>
    let r := st.client.GetNumberValueDetails api flag defaultValue evalCtx options st.provider
    (.Details r.1.1 r.1.2, { st with provider := r.2 })
  | .GetObjectValueDetails flag defaultValue evalCtx options =>
    let r := st.client.GetObjectValueDetails api flag defaultValue evalCtx options st.provider
    (.Details r.1.1 r.1.2, { st with provider := r.2 })

end Accessors

/-! ## A concrete provider for the scenarios -/

/-- A provider with four known flags, one per type: `dark-mode`, `title`,
`ratio` and `layout`.  Any other flag (such as `greeting`) resolves to the zero
value with `FlagNotFound` and reason `ERROR`.  Its state counts the resolutions
it has served. -/
def scenarioProvider : FeatureProvider Nat (List (String × String)) String where
  GetBooleanEvaluation flag _ _ _ served :=
    if flag = "dark-mode" then ({ Value := true, ErrorCode := .None }, served + 1)
    else ({ Value := false, ErrorCode := .FlagNotFound, Reason := "ERROR" }, served + 1)
  GetStringEvaluation flag _ _ _ served :=
    if flag = "title" then
      ({ Value := "Welcome", ErrorCode := .None, Reason := "STATIC", Variant := "v2" }, served + 1)
    else ({ Value := "", ErrorCode := .FlagNotFound, Reason := "ERROR" }, served + 1)
  GetNumberEvaluation flag _ _ _ served :=
    if flag = "ratio" then
      ({ Value := ⟨0x3FE0000000000000⟩, ErrorCode := .None, Reason := "STATIC" }, served + 1)
    else ({ Value := ⟨0⟩, ErrorCode := .FlagNotFound, Reason := "ERROR" }, served + 1)
  GetObjectEvaluation flag _ _ _ served :=
    if flag = "layout" then
      ({ Value := .map [("columns", .float64 ⟨0x4008000000000000⟩)], ErrorCode := .None,
         Variant := "wide" }, served + 1)
    else ({ Value := .nil, ErrorCode := .FlagNotFound, Reason := "ERROR" }, served + 1)

/-- The holder of the active provider with `scenarioProvider` installed. -/
def scenarioAPI : evaluationAPI Nat (List (String × String)) String :=
  { provider := scenarioProvider }

/-- A provider that fails every resolution with `ProviderUnavailable` and leaves
its state alone. -/
def unavailableProvider : FeatureProvider Nat (List (String × String)) String where
  GetBooleanEvaluation _ _ _ _ served :=
    ({ Value := false, ErrorCode := .ProviderUnavailable, Reason := "ERROR" }, served)
  GetStringEvaluation _ _ _ _ served :=
    ({ Value := "", ErrorCode := .ProviderUnavailable, Reason := "ERROR" }, served)
  GetNumberEvaluation _ _ _ _ served :=
    ({ Value := ⟨0⟩, ErrorCode := .ProviderUnavailable, Reason := "ERROR" }, served)
  GetObjectEvaluation _ _ _ _ served :=
    ({ Value := .nil, ErrorCode := .ProviderUnavailable, Reason := "ERROR" }, served)

/-- A client named `web` with two hooks attached. -/
def webClient : Client String :=
  (GetClient "web").AddHooks ["logging", "metrics"]

/-- The holder of the active provider with `unavailableProvider` installed. -/
def unavailableAPI : evaluationAPI Nat (List (String × String)) String :=
  { provider := unavailableProvider }

/-- A provider holder that resolves flags of type `kind` like `scenarioProvider`
and is `unavailableProvider` for the other three types. -/
def spliceAPI (kind : Type_) : evaluationAPI Nat (List (String × String)) String :=
  { provider :=
      { GetBooleanEvaluation :=
          if kind = Type_.Boolean then scenarioProvider.GetBooleanEvaluation
          else unavailableProvider.GetBooleanEvaluation
        GetStringEvaluation :=
          if kind = Type_.String then scenarioProvider.GetStringEvaluation
          else unavailableProvider.GetStringEvaluation
        GetNumberEvaluation :=
          if kind = Type_.Number then scenarioProvider.GetNumberEvaluation
          else unavailableProvider.GetNumberEvaluation
        GetObjectEvaluation :=
          if kind = Type_.Object then scenarioProvider.GetObjectEvaluation
          else unavailableProvider.GetObjectEvaluation } }

/-! ## Default substitution (simple accessors) -/

section Theorems

variable {σ Hook EvaluationContext EvaluationOption : Type}

/-- C1: for each of the four simple accessors, when the resolution the provider
returns for the call has a non-nil `Error()`, the accessor returns exactly
`defaultValue` together with that same non-nil error. -/
theorem simple_accessor_error_gives_default
    (api : evaluationAPI σ EvaluationContext EvaluationOption) (c : Client Hook)
    (flag : String) (evalCtx : EvaluationContext) (options : List EvaluationOption) (s : σ) :
    (∀ (defaultValue : Bool) (resolution : Resolution Bool) (s' : σ),
        api.provider.GetBooleanEvaluation flag defaultValue evalCtx options s = (resolution, s') →
        resolution.Error ≠ none →
        (c.GetBooleanValue api flag defaultValue evalCtx options s).1
          = (defaultValue, resolution.Error)) ∧
    (∀ (defaultValue : String) (resolution : Resolution String) (s' : σ),
        api.provider.GetStringEvaluation flag defaultValue evalCtx options s = (resolution, s') →
        resolution.Error ≠ none →
        (c.GetStringValue api flag defaultValue evalCtx options s).1
          = (defaultValue, resolution.Error)) ∧
    (∀ (defaultValue : float64) (resolution : Resolution float64) (s' : σ),
        api.provider.GetNumberEvaluation flag defaultValue evalCtx options s = (resolution, s') →
        resolution.Error ≠ none →
        (c.GetNumberValue api flag defaultValue evalCtx options s).1
          = (defaultValue, resolution.Error)) ∧
    (∀ (defaultValue : Any) (resolution : Resolution Any) (s' : σ),
        api.provider.GetObjectEvaluation flag defaultValue evalCtx options s = (resolution, s') →
        resolution.Error ≠ none →
        (c.GetObjectValue api flag defaultValue evalCtx options s).1
          = (defaultValue, resolution.Error)) := by
  refine ⟨?_, ?_, ?_, ?_⟩ <;> intro defaultValue resolution s' hcall herr
  · simp [Client.GetBooleanValue, hcall, herr]
  · simp [Client.GetStringValue, hcall, herr]
  · simp [Client.GetNumberValue, hcall, herr]
  · simp [Client.GetObjectValue, hcall, herr]

/-- Witness for C1: flag `greeting` with default `hi` is unknown to the scenario
provider, whose resolution is `{Value: "", ErrorCode: FlagNotFound, Reason:
"ERROR"}`; the string accessor returns `hi` and the error, and likewise the
other three accessors return their defaults. -/
theorem simple_accessor_error_gives_default_witness :
    (scenarioProvider.GetStringEvaluation "greeting" "hi" [] [] 0).1
        = { Value := "", ErrorCode := .FlagNotFound, Reason := "ERROR" } ∧
    (webClient.GetStringValue scenarioAPI "greeting" "hi" [] [] 0).1
        = ("hi", some { code := .FlagNotFound }) ∧
    (webClient.GetBooleanValue scenarioAPI "greeting" true [] [] 0).1
        = (true, some { code := .FlagNotFound }) ∧
    (webClient.GetNumberValue scenarioAPI "greeting" ⟨7⟩ [] [] 0).1
        = (⟨7⟩, some { code := .FlagNotFound }) ∧
    (webClient.GetObjectValue scenarioAPI "greeting" (.slice [.bool true]) [] [] 0).1
        = (.slice [.bool true], some { code := .FlagNotFound }) := by
  have h := simple_accessor_error_gives_default scenarioAPI webClient "greeting" [] [] 0
  refine ⟨rfl, ?_, ?_, ?_, ?_⟩
  · exact h.2.1 "hi" { Value := "", ErrorCode := .FlagNotFound, Reason := "ERROR" } 1 rfl
      (by decide)
  · exact h.1 true { Value := false, ErrorCode := .FlagNotFound, Reason := "ERROR" } 1 rfl
      (by decide)
  · exact h.2.2.1 ⟨7⟩ { Value := ⟨0⟩, ErrorCode := .FlagNotFound, Reason := "ERROR" } 1 rfl
      (by decide)
  · exact h.2.2.2 (.slice [.bool true])
      { Value := .nil, ErrorCode := .FlagNotFound, Reason := "ERROR" } 1 rfl (by decide)

/-- C2: for each of the four simple accessors, when the resolution the provider
returns for the call has a nil `Error()`, the accessor returns exactly the
resolution's `Value`, whatever the default, together with a nil error. -/
theorem simple_accessor_success_gives_provider_value
    (api : evaluationAPI σ EvaluationContext EvaluationOption) (c : Client Hook)
    (flag : String) (evalCtx : EvaluationContext) (options : List EvaluationOption) (s : σ) :
    (∀ (defaultValue : Bool) (resolution : Resolution Bool) (s' : σ),
        api.provider.GetBooleanEvaluation flag defaultValue evalCtx options s = (resolution, s') →
        resolution.Error = none →
        (c.GetBooleanValue api flag defaultValue evalCtx options s).1
          = (resolution.Value, none)) ∧
    (∀ (defaultValue : String) (resolution : Resolution String) (s' : σ),
        api.provider.GetStringEvaluation flag defaultValue evalCtx options s = (resolution, s') →
        resolution.Error = none →
        (c.GetStringValue api flag defaultValue evalCtx options s).1
          = (resolution.Value, none)) ∧
    (∀ (defaultValue : float64) (resolution : Resolution float64) (s' : σ),
        api.provider.GetNumberEvaluation flag defaultValue evalCtx options s = (resolution, s') →
        resolution.Error = none →
        (c.GetNumberValue api flag defaultValue evalCtx options s).1
          = (resolution.Value, none)) ∧
    (∀ (defaultValue : Any) (resolution : Resolution Any) (s' : σ),
        api.provider.GetObjectEvaluation flag defaultValue evalCtx options s = (resolution, s') →
        resolution.Error = none →
        (c.GetObjectValue api flag defaultValue evalCtx options s).1
          = (resolution.Value, none)) := by
  refine ⟨?_, ?_, ?_, ?_⟩ <;> intro defaultValue resolution s' hcall herr
  · simp [Client.GetBooleanValue, hcall, herr]
  · simp [Client.GetStringValue, hcall, herr]
  · simp [Client.GetNumberValue, hcall, herr]
  · simp [Client.GetObjectValue, hcall, herr]

/-- Witness for C2: the scenario provider resolves `dark-mode` to `{Value: true,
ErrorCode: None}`; with default `false` the boolean accessor returns
`(true, nil)`, and the other three accessors return the provider's values for
`title`, `ratio` and `layout`. -/
theorem simple_accessor_success_gives_provider_value_witness :
    (scenarioProvider.GetBooleanEvaluation "dark-mode" false [] [] 0).1
        = { Value := true, ErrorCode := .None } ∧
    (webClient.GetBooleanValue scenarioAPI "dark-mode" false [] [] 0).1 = (true, none) ∧
    (webClient.GetStringValue scenarioAPI "title" "hi" [] [] 0).1 = ("Welcome", none) ∧
    (webClient.GetNumberValue scenarioAPI "ratio" ⟨7⟩ [] [] 0).1
        = (⟨0x3FE0000000000000⟩, none) ∧
    (webClient.GetObjectValue scenarioAPI "layout" .nil [] [] 0).1
        = (.map [("columns", .float64 ⟨0x4008000000000000⟩)], none) := by
  refine ⟨rfl, ?_, ?_, ?_, ?_⟩
  · exact (simple_accessor_success_gives_provider_value scenarioAPI webClient "dark-mode"
      [] [] 0).1 false { Value := true, ErrorCode := .None } 1 rfl (by decide)
  · exact (simple_accessor_success_gives_provider_value scenarioAPI webClient "title"
      [] [] 0).2.1 "hi"
      { Value := "Welcome", ErrorCode := .None, Reason := "STATIC", Variant := "v2" } 1 rfl
      (by decide)
  · exact (simple_accessor_success_gives_provider_value scenarioAPI webClient "ratio"
      [] [] 0).2.2.1 ⟨7⟩
      { Value := ⟨0x3FE0000000000000⟩, ErrorCode := .None, Reason := "STATIC" } 1 rfl
      (by decide)
  · exact (simple_accessor_success_gives_provider_value scenarioAPI webClient "layout"
      [] [] 0).2.2.2 .nil
      { Value := .map [("columns", .float64 ⟨0x4008000000000000⟩)], ErrorCode := .None,
        Variant := "wide" } 1 rfl (by decide)

/-! ## Evaluation details -/

/-- C3: whatever the provider returns, the details returned by the four
`Get*ValueDetails` accessors carry the caller's flag as `FlagKey` and the
constant `Boolean`, `String`, `Number`, `Object` of the accessor as `FlagType`;
the four constants are pairwise distinct. -/
theorem details_flag_key_and_type
    (api : evaluationAPI σ EvaluationContext EvaluationOption) (c : Client Hook)
    (flag : String) (evalCtx : EvaluationContext) (options : List EvaluationOption) (s : σ) :
    (∀ defaultValue : Bool,
        (c.GetBooleanValueDetails api flag defaultValue evalCtx options s).1.1.FlagKey = flag ∧
        (c.GetBooleanValueDetails api flag defaultValue evalCtx options s).1.1.FlagType
          = Type_.Boolean) ∧
    (∀ defaultValue : String,
        (c.GetStringValueDetails api flag defaultValue evalCtx options s).1.1.FlagKey = flag ∧
        (c.GetStringValueDetails api flag defaultValue evalCtx options s).1.1.FlagType
          = Type_.String) ∧
    (∀ defaultValue : float64,
        (c.GetNumberValueDetails api flag defaultValue evalCtx options s).1.1.FlagKey = flag ∧
        (c.GetNumberValueDetails api flag defaultValue evalCtx options s).1.1.FlagType
          = Type_.Number) ∧
    (∀ defaultValue : Any,
        (c.GetObjectValueDetails api flag defaultValue evalCtx options s).1.1.FlagKey = flag ∧
        (c.GetObjectValueDetails api flag defaultValue evalCtx options s).1.1.FlagType
          = Type_.Object) ∧
    (Type_.Boolean ≠ Type_.String ∧ Type_.Boolean ≠ Type_.Number ∧
      Type_.Boolean ≠ Type_.Object ∧ Type_.String ≠ Type_.Number ∧
      Type_.String ≠ Type_.Object ∧ Type_.Number ≠ Type_.Object) := by
  refine ⟨fun _ => ⟨rfl, rfl⟩, fun _ => ⟨rfl, rfl⟩, fun _ => ⟨rfl, rfl⟩, fun _ => ⟨rfl, rfl⟩, ?_⟩
  decide

/-- C4: for each of the four `Get*ValueDetails` accessors, when the provider's
resolution has a non-nil `Error()`, the details carry `defaultValue` as `Value`
and the resolution's own `ErrorCode`, `Reason` and `Variant`, and the returned
error is that non-nil error. -/
theorem details_error_gives_default
    (api : evaluationAPI σ EvaluationContext EvaluationOption) (c : Client Hook)
    (flag : String) (evalCtx : EvaluationContext) (options : List EvaluationOption) (s : σ) :
    (∀ (defaultValue : Bool) (resolution : Resolution Bool) (s' : σ),
        api.provider.GetBooleanEvaluation flag defaultValue evalCtx options s = (resolution, s') →
        resolution.Error ≠ none →
        (c.GetBooleanValueDetails api flag defaultValue evalCtx options s).1.1.ResolutionDetail
          = { Value := Any.bool defaultValue, ErrorCode := resolution.ErrorCode,
              Reason := resolution.Reason, Variant := resolution.Variant } ∧
        (c.GetBooleanValueDetails api flag defaultValue evalCtx options s).1.2
          = resolution.Error) ∧
    (∀ (defaultValue : String) (resolution : Resolution String) (s' : σ),
        api.provider.GetStringEvaluation flag defaultValue evalCtx options s = (resolution, s') →
        resolution.Error ≠ none →
        (c.GetStringValueDetails api flag defaultValue evalCtx options s).1.1.ResolutionDetail
          = { Value := Any.string defaultValue, ErrorCode := resolution.ErrorCode,
              Reason := resolution.Reason, Variant := resolution.Variant } ∧
        (c.GetStringValueDetails api flag defaultValue evalCtx options s).1.2
          = resolution.Error) ∧
    (∀ (defaultValue : float64) (resolution : Resolution float64) (s' : σ),
        api.provider.GetNumberEvaluation flag defaultValue evalCtx options s = (resolution, s') →
        resolution.Error ≠ none →
        (c.GetNumberValueDetails api flag defaultValue evalCtx options s).1.1.ResolutionDetail
          = { Value := Any.float64 defaultValue, ErrorCode := resolution.ErrorCode,
              Reason := resolution.Reason, Variant := resolution.Variant } ∧
        (c.GetNumberValueDetails api flag defaultValue evalCtx options s).1.2
          = resolution.Error) ∧
    (∀ (defaultValue : Any) (resolution : Resolution Any) (s' : σ),
        api.provider.GetObjectEvaluation flag defaultValue evalCtx options s = (resolution, s') →
        resolution.Error ≠ none →
        (c.GetObjectValueDetails api flag defaultValue evalCtx options s).1.1.ResolutionDetail
          = { Value := defaultValue, ErrorCode := resolution.ErrorCode,
              Reason := resolution.Reason, Variant := resolution.Variant } ∧
        (c.GetObjectValueDetails api flag defaultValue evalCtx options s).1.2
          = resolution.Error) := by
  refine ⟨?_, ?_, ?_, ?_⟩ <;> intro defaultValue resolution s' hcall herr
  · simp [Client.GetBooleanValueDetails, hcall, herr]
  · simp [Client.GetStringValueDetails, hcall, herr]
  · simp [Client.GetNumberValueDetails, hcall, herr]
  · simp [Client.GetObjectValueDetails, hcall, herr]

/-- Witness for C4: for the unknown flag `greeting` with default `hi` the string
details are `{FlagKey: "greeting", FlagType: String, ResolutionDetail: {Value:
"hi", ErrorCode: FlagNotFound, Reason: "ERROR"}}`, and the other three
accessors substitute their defaults in the same way. -/
theorem details_error_gives_default_witness :
    (webClient.GetStringValueDetails scenarioAPI "greeting" "hi" [] [] 0).1.1
        = { FlagKey := "greeting", FlagType := Type_.String,
            ResolutionDetail :=
              { Value := .string "hi", ErrorCode := .FlagNotFound, Reason := "ERROR" } } ∧
    ((webClient.GetStringValueDetails scenarioAPI "greeting" "hi" [] [] 0).1.1.ResolutionDetail
        = { Value := .string "hi", ErrorCode := .FlagNotFound, Reason := "ERROR", Variant := "" } ∧
      (webClient.GetStringValueDetails scenarioAPI "greeting" "hi" [] [] 0).1.2
        = some { code := .FlagNotFound }) ∧
    ((webClient.GetBooleanValueDetails scenarioAPI "greeting" true [] [] 0).1.1.ResolutionDetail
        = { Value := .bool true, ErrorCode := .FlagNotFound, Reason := "ERROR", Variant := "" } ∧
      (webClient.GetBooleanValueDetails scenarioAPI "greeting" true [] [] 0).1.2
        = some { code := .FlagNotFound }) ∧
    ((webClient.GetNumberValueDetails scenarioAPI "greeting" ⟨7⟩ [] [] 0).1.1.ResolutionDetail
        = { Value := .float64 ⟨7⟩, ErrorCode := .FlagNotFound, Reason := "ERROR", Variant := "" } ∧
      (webClient.GetNumberValueDetails scenarioAPI "greeting" ⟨7⟩ [] [] 0).1.2
        = some { code := .FlagNotFound }) ∧
    ((webClient.GetObjectValueDetails scenarioAPI "greeting" (.slice []) [] [] 0).1.1.ResolutionDetail
        = { Value := .slice [], ErrorCode := .FlagNotFound, Reason := "ERROR", Variant := "" } ∧
      (webClient.GetObjectValueDetails scenarioAPI "greeting" (.slice []) [] [] 0).1.2
        = some { code := .FlagNotFound }) := by
  have h := details_error_gives_default scenarioAPI webClient "greeting" [] [] 0
  refine ⟨rfl, ?_, ?_, ?_, ?_⟩
  · exact h.2.1 "hi" { Value := "", ErrorCode := .FlagNotFound, Reason := "ERROR" } 1 rfl
      (by decide)
  · exact h.1 true { Value := false, ErrorCode := .FlagNotFound, Reason := "ERROR" } 1 rfl
      (by decide)
  · exact h.2.2.1 ⟨7⟩ { Value := ⟨0⟩, ErrorCode := .FlagNotFound, Reason := "ERROR" } 1 rfl
      (by decide)
  · exact h.2.2.2 (.slice []) { Value := .nil, ErrorCode := .FlagNotFound, Reason := "ERROR" } 1
      rfl (by decide)

/-- C5: for each of the four `Get*ValueDetails` accessors, when the provider's
resolution has a nil `Error()`, the `ResolutionDetail` of the returned details
equals the resolution in all four fields `Value`, `ErrorCode`, `Reason` and
`Variant`, and the returned error is nil. -/
theorem details_success_keeps_resolution
    (api : evaluationAPI σ EvaluationContext EvaluationOption) (c : Client Hook)
    (flag : String) (evalCtx : EvaluationContext) (options : List EvaluationOption) (s : σ) :
    (∀ (defaultValue : Bool) (resolution : Resolution Bool) (s' : σ),
        api.provider.GetBooleanEvaluation flag defaultValue evalCtx options s = (resolution, s') →
        resolution.Error = none →
        (c.GetBooleanValueDetails api flag defaultValue evalCtx options s).1.1.ResolutionDetail
          = { Value := Any.bool resolution.Value, ErrorCode := resolution.ErrorCode,
              Reason := resolution.Reason, Variant := resolution.Variant } ∧
        (c.GetBooleanValueDetails api flag defaultValue evalCtx options s).1.2 = none) ∧
    (∀ (defaultValue : String) (resolution : Resolution String) (s' : σ),
        api.provider.GetStringEvaluation flag defaultValue evalCtx options s = (resolution, s') →
        resolution.Error = none →
        (c.GetStringValueDetails api flag defaultValue evalCtx options s).1.1.ResolutionDetail
          = { Value := Any.string resolution.Value, ErrorCode := resolution.ErrorCode,
              Reason := resolution.Reason, Variant := resolution.Variant } ∧
        (c.GetStringValueDetails api flag defaultValue evalCtx options s).1.2 = none) ∧
    (∀ (defaultValue : float64) (resolution : Resolution float64) (s' : σ),
        api.provider.GetNumberEvaluation flag defaultValue evalCtx options s = (resolution, s') →
        resolution.Error = none →
        (c.GetNumberValueDetails api flag defaultValue evalCtx options s).1.1.ResolutionDetail
          = { Value := Any.float64 resolution.Value, ErrorCode := resolution.ErrorCode,
              Reason := resolution.Reason, Variant := resolution.Variant } ∧
        (c.GetNumberValueDetails api flag defaultValue evalCtx options s).1.2 = none) ∧
    (∀ (defaultValue : Any) (resolution : Resolution Any) (s' : σ),
        api.provider.GetObjectEvaluation flag defaultValue evalCtx options s = (resolution, s') →
        resolution.Error = none →
        (c.GetObjectValueDetails api flag defaultValue evalCtx options s).1.1.ResolutionDetail
          = { Value := resolution.Value, ErrorCode := resolution.ErrorCode,
              Reason := resolution.Reason, Variant := resolution.Variant } ∧
        (c.GetObjectValueDetails api flag defaultValue evalCtx options s).1.2 = none) := by
  refine ⟨?_, ?_, ?_, ?_⟩ <;> intro defaultValue resolution s' hcall herr
  · simp [Client.GetBooleanValueDetails, hcall, herr]
  · simp [Client.GetStringValueDetails, hcall, herr]
  · simp [Client.GetNumberValueDetails, hcall, herr]
  · simp [Client.GetObjectValueDetails, hcall, herr]

/-- Witness for C5: the details for the known flags `dark-mode`, `title`,
`ratio` and `layout` repeat the scenario provider's resolutions, with a nil
error; for `layout` the `ResolutionDetail` is the provider's resolution
itself. -/
theorem details_success_keeps_resolution_witness :
    ((webClient.GetBooleanValueDetails scenarioAPI "dark-mode" false [] [] 0).1.1.ResolutionDetail
        = { Value := .bool true, ErrorCode := .None, Reason := "", Variant := "" } ∧
      (webClient.GetBooleanValueDetails scenarioAPI "dark-mode" false [] [] 0).1.2 = none) ∧
    ((webClient.GetStringValueDetails scenarioAPI "title" "hi" [] [] 0).1.1.ResolutionDetail
        = { Value := .string "Welcome", ErrorCode := .None, Reason := "STATIC",
            Variant := "v2" } ∧
      (webClient.GetStringValueDetails scenarioAPI "title" "hi" [] [] 0).1.2 = none) ∧
    ((webClient.GetNumberValueDetails scenarioAPI "ratio" ⟨7⟩ [] [] 0).1.1.ResolutionDetail
        = { Value := .float64 ⟨0x3FE0000000000000⟩, ErrorCode := .None, Reason := "STATIC",
            Variant := "" } ∧
      (webClient.GetNumberValueDetails scenarioAPI "ratio" ⟨7⟩ [] [] 0).1.2 = none) ∧
    ((webClient.GetObjectValueDetails scenarioAPI "layout" .nil [] [] 0).1.1.ResolutionDetail
        = (scenarioProvider.GetObjectEvaluation "layout" .nil [] [] 0).1 ∧
      (webClient.GetObjectValueDetails scenarioAPI "layout" .nil [] [] 0).1.2 = none) := by
  refine ⟨?_, ?_, ?_, ?_⟩
  · exact (details_success_keeps_resolution scenarioAPI webClient "dark-mode" [] [] 0).1 false
      { Value := true, ErrorCode := .None } 1 rfl (by decide)
  · exact (details_success_keeps_resolution scenarioAPI webClient "title" [] [] 0).2.1 "hi"
      { Value := "Welcome", ErrorCode := .None, Reason := "STATIC", Variant := "v2" } 1 rfl
      (by decide)
  · exact (details_success_keeps_resolution scenarioAPI webClient "ratio" [] [] 0).2.2.1 ⟨7⟩
      { Value := ⟨0x3FE0000000000000⟩, ErrorCode := .None, Reason := "STATIC" } 1 rfl
      (by decide)
  · exact (details_success_keeps_resolution scenarioAPI webClient "layout" [] [] 0).2.2.2 .nil
      { Value := .map [("columns", .float64 ⟨0x4008000000000000⟩)], ErrorCode := .None,
        Variant := "wide" } 1 rfl (by decide)

/-- C6: for each type, `Get*ValueDetails` and `Get*Value` agree on the same
arguments (and the same provider state): the `Value` of the details is the
value of the simple accessor, stored as an `interface{}`, the two calls return
the same error, and they leave the provider in the same state. -/
theorem details_agree_with_simple_accessor
    (api : evaluationAPI σ EvaluationContext EvaluationOption) (c : Client Hook)
    (flag : String) (evalCtx : EvaluationContext) (options : List EvaluationOption) (s : σ) :
    (∀ defaultValue : Bool,
        (c.GetBooleanValueDetails api flag defaultValue evalCtx options s).1.1.ResolutionDetail.Value
          = Any.bool (c.GetBooleanValue api flag defaultValue evalCtx options s).1.1 ∧
        (c.GetBooleanValueDetails api flag defaultValue evalCtx options s).1.2
          = (c.GetBooleanValue api flag defaultValue evalCtx options s).1.2 ∧
        (c.GetBooleanValueDetails api flag defaultValue evalCtx options s).2
          = (c.GetBooleanValue api flag defaultValue evalCtx options s).2) ∧
    (∀ defaultValue : String,
        (c.GetStringValueDetails api flag defaultValue evalCtx options s).1.1.ResolutionDetail.Value
          = Any.string (c.GetStringValue api flag defaultValue evalCtx options s).1.1 ∧
        (c.GetStringValueDetails api flag defaultValue evalCtx options s).1.2
          = (c.GetStringValue api flag defaultValue evalCtx options s).1.2 ∧
        (c.GetStringValueDetails api flag defaultValue evalCtx options s).2
          = (c.GetStringValue api flag defaultValue evalCtx options s).2) ∧
    (∀ defaultValue : float64,
        (c.GetNumberValueDetails api flag defaultValue evalCtx options s).1.1.ResolutionDetail.Value
          = Any.float64 (c.GetNumberValue api flag defaultValue evalCtx options s).1.1 ∧
        (c.GetNumberValueDetails api flag defaultValue evalCtx options s).1.2
          = (c.GetNumberValue api flag defaultValue evalCtx options s).1.2 ∧
        (c.GetNumberValueDetails api flag defaultValue evalCtx options s).2
          = (c.GetNumberValue api flag defaultValue evalCtx options s).2) ∧
    (∀ defaultValue : Any,
        (c.GetObjectValueDetails api flag defaultValue evalCtx options s).1.1.ResolutionDetail.Value
          = (c.GetObjectValue api flag defaultValue evalCtx options s).1.1 ∧
        (c.GetObjectValueDetails api flag defaultValue evalCtx options s).1.2
          = (c.GetObjectValue api flag defaultValue evalCtx options s).1.2 ∧
        (c.GetObjectValueDetails api flag defaultValue evalCtx options s).2
          = (c.GetObjectValue api flag defaultValue evalCtx options s).2) :=
  ⟨fun _ => ⟨rfl, rfl, rfl⟩, fun _ => ⟨rfl, rfl, rfl⟩, fun _ => ⟨rfl, rfl, rfl⟩,
    fun _ => ⟨rfl, rfl, rfl⟩⟩

/-! ## Hooks and metadata -/

/-- C7: `AddHooks` is append-only and order-preserving: after `AddHooks(hs...)`
on a client with hooks `H` the hooks are exactly `H` followed by `hs`; a client
from `GetClient` starts without hooks, so `AddHooks(h1)` then
`AddHooks(h2, h3)` on a fresh client leaves exactly `[h1, h2, h3]`. -/
theorem add_hooks_appends :
    (∀ (c : Client Hook) (hs : List Hook), (c.AddHooks hs).hooks = c.hooks ++ hs) ∧
    (∀ name : String, (GetClient name : Client Hook).hooks = []) ∧
    (∀ (name : String) (h1 h2 h3 : Hook),
        (((GetClient name).AddHooks [h1]).AddHooks [h2, h3]).hooks = [h1, h2, h3]) :=
  ⟨fun _ _ => rfl, fun _ => rfl, fun _ _ _ _ => rfl⟩

/-- One `AddHooks` call leaves the metadata of the client alone. -/
theorem add_hooks_metadata (c : Client Hook) (hs : List Hook) :
    (c.AddHooks hs).metadata = c.metadata :=
  rfl

/-- A sequence of `AddHooks` calls leaves the metadata of the client alone. -/
theorem foldl_add_hooks_metadata (calls : List (List Hook)) (c : Client Hook) :
    (calls.foldl Client.AddHooks c).metadata = c.metadata := by
  induction calls generalizing c with
  | nil => rfl
  | cons hs rest ih => rw [List.foldl_cons, ih, add_hooks_metadata]

/-- C8: `GetClient(name).Metadata().Name()` is `name`, and stays `name` after
any finite sequence of `AddHooks` calls on that client; `AddHooks` changes only
the hook list. -/
theorem metadata_name_is_stable (name : String) :
    (GetClient name : Client Hook).Metadata.Name = name ∧
    (∀ calls : List (List Hook),
        (calls.foldl Client.AddHooks (GetClient name)).Metadata.Name = name) ∧
    (∀ (c : Client Hook) (hs : List Hook), (c.AddHooks hs).Metadata = c.Metadata) := by
  refine ⟨rfl, fun calls => ?_, fun c hs => rfl⟩
  show (calls.foldl Client.AddHooks (GetClient name)).metadata.name = name
  rw [foldl_add_hooks_metadata]
  rfl

/-! ## Delegation to the provider -/

/-- C9: each accessor for a type consults only the provider's operation for that
type, on exactly the caller's flag, default, context and options: two
providers whose operation for the type gives the same outcome at these very
arguments give equal results for both accessors of the type, whatever their
other operations do. -/
theorem accessor_uses_only_own_operation
    (api₁ api₂ : evaluationAPI σ EvaluationContext EvaluationOption) (c : Client Hook)
    (flag : String) (evalCtx : EvaluationContext) (options : List EvaluationOption) (s : σ) :
    (∀ defaultValue : Bool,
        api₁.provider.GetBooleanEvaluation flag defaultValue evalCtx options s
          = api₂.provider.GetBooleanEvaluation flag defaultValue evalCtx options s →
        c.GetBooleanValue api₁ flag defaultValue evalCtx options s
          = c.GetBooleanValue api₂ flag defaultValue evalCtx options s ∧
        c.GetBooleanValueDetails api₁ flag defaultValue evalCtx options s
          = c.GetBooleanValueDetails api₂ flag defaultValue evalCtx options s) ∧
    (∀ defaultValue : String,
        api₁.provider.GetStringEvaluation flag defaultValue evalCtx options s
          = api₂.provider.GetStringEvaluation flag defaultValue evalCtx options s →
        c.GetStringValue api₁ flag defaultValue evalCtx options s
          = c.GetStringValue api₂ flag defaultValue evalCtx options s ∧
        c.GetStringValueDetails api₁ flag defaultValue evalCtx options s
          = c.GetStringValueDetails api₂ flag defaultValue evalCtx options s) ∧
    (∀ defaultValue : float64,
        api₁.provider.GetNumberEvaluation flag defaultValue evalCtx options s
          = api₂.provider.GetNumberEvaluation flag defaultValue evalCtx options s →
        c.GetNumberValue api₁ flag defaultValue evalCtx options s
          = c.GetNumberValue api₂ flag defaultValue evalCtx options s ∧
        c.GetNumberValueDetails api₁ flag defaultValue evalCtx options s
          = c.GetNumberValueDetails api₂ flag defaultValue evalCtx options s) ∧
    (∀ defaultValue : Any,
        api₁.provider.GetObjectEvaluation flag defaultValue evalCtx options s
          = api₂.provider.GetObjectEvaluation flag defaultValue evalCtx options s →
        c.GetObjectValue api₁ flag defaultValue evalCtx options s
          = c.GetObjectValue api₂ flag defaultValue evalCtx options s ∧
        c.GetObjectValueDetails api₁ flag defaultValue evalCtx options s
          = c.GetObjectValueDetails api₂ flag defaultValue evalCtx options s) := by
  refine ⟨?_, ?_, ?_, ?_⟩ <;> intro defaultValue hcall
  · simp only [Client.GetBooleanValue, Client.GetBooleanValueDetails, hcall, and_self]
  · simp only [Client.GetStringValue, Client.GetStringValueDetails, hcall, and_self]
  · simp only [Client.GetNumberValue, Client.GetNumberValueDetails, hcall, and_self]
  · simp only [Client.GetObjectValue, Client.GetObjectValueDetails, hcall, and_self]

/-- Witness for C9: `spliceAPI kind` agrees with `scenarioAPI` on the operation
for `kind` and fails every other resolution with `ProviderUnavailable`; the
accessors of that type cannot tell the two apart, while an accessor of another
type can. -/
theorem accessor_uses_only_own_operation_witness :
    (webClient.GetBooleanValue (spliceAPI Type_.Boolean) "dark-mode" false [] [] 0
        = webClient.GetBooleanValue scenarioAPI "dark-mode" false [] [] 0 ∧
      webClient.GetBooleanValueDetails (spliceAPI Type_.Boolean) "dark-mode" false [] [] 0
        = webClient.GetBooleanValueDetails scenarioAPI "dark-mode" false [] [] 0) ∧
    (webClient.GetStringValue (spliceAPI Type_.String) "title" "hi" [] [] 0
        = webClient.GetStringValue scenarioAPI "title" "hi" [] [] 0 ∧
      webClient.GetStringValueDetails (spliceAPI Type_.String) "title" "hi" [] [] 0
        = webClient.GetStringValueDetails scenarioAPI "title" "hi" [] [] 0) ∧
    (webClient.GetNumberValue (spliceAPI Type_.Number) "ratio" ⟨7⟩ [] [] 0
        = webClient.GetNumberValue scenarioAPI "ratio" ⟨7⟩ [] [] 0 ∧
      webClient.GetNumberValueDetails (spliceAPI Type_.Number) "ratio" ⟨7⟩ [] [] 0
        = webClient.GetNumberValueDetails scenarioAPI "ratio" ⟨7⟩ [] [] 0) ∧
    (webClient.GetObjectValue (spliceAPI Type_.Object) "layout" .nil [] [] 0
        = webClient.GetObjectValue scenarioAPI "layout" .nil [] [] 0 ∧
      webClient.GetObjectValueDetails (spliceAPI Type_.Object) "layout" .nil [] [] 0
        = webClient.GetObjectValueDetails scenarioAPI "layout" .nil [] [] 0) ∧
    (webClient.GetStringValue (spliceAPI Type_.Boolean) "title" "hi" [] [] 0).1
        = ("hi", some { code := .ProviderUnavailable }) ∧
    (webClient.GetStringValue scenarioAPI "title" "hi" [] [] 0).1 = ("Welcome", none) := by
  refine ⟨?_, ?_, ?_, ?_, rfl, rfl⟩
  · exact (accessor_uses_only_own_operation (spliceAPI Type_.Boolean) scenarioAPI webClient
      "dark-mode" [] [] 0).1 false rfl
  · exact (accessor_uses_only_own_operation (spliceAPI Type_.String) scenarioAPI webClient
      "title" [] [] 0).2.1 "hi" rfl
  · exact (accessor_uses_only_own_operation (spliceAPI Type_.Number) scenarioAPI webClient
      "ratio" [] [] 0).2.2.1 ⟨7⟩ rfl
  · exact (accessor_uses_only_own_operation (spliceAPI Type_.Object) scenarioAPI webClient
      "layout" [] [] 0).2.2.2 .nil rfl

/-! ## Independence from the client -/

/-- C10: evaluation calls neither read nor change the client: any two clients
obtain the same value or details, the same error and the same successor
provider state from each of the eight accessors, and running an evaluation
call leaves the caller's client (metadata and hooks) as it was. -/
theorem evaluation_is_independent_of_client
    (api : evaluationAPI σ EvaluationContext EvaluationOption) (c₁ c₂ : Client Hook)
    (flag : String) (evalCtx : EvaluationContext) (options : List EvaluationOption) (s : σ) :
    (∀ defaultValue : Bool,
        c₁.GetBooleanValue api flag defaultValue evalCtx options s
          = c₂.GetBooleanValue api flag defaultValue evalCtx options s ∧
        c₁.GetBooleanValueDetails api flag defaultValue evalCtx options s
          = c₂.GetBooleanValueDetails api flag defaultValue evalCtx options s) ∧
    (∀ defaultValue : String,
        c₁.GetStringValue api flag defaultValue evalCtx options s
          = c₂.GetStringValue api flag defaultValue evalCtx options s ∧
        c₁.GetStringValueDetails api flag defaultValue evalCtx options s
          = c₂.GetStringValueDetails api flag defaultValue evalCtx options s) ∧
    (∀ defaultValue : float64,
        c₁.GetNumberValue api flag defaultValue evalCtx options s
          = c₂.GetNumberValue api flag defaultValue evalCtx options s ∧
        c₁.GetNumberValueDetails api flag defaultValue evalCtx options s
          = c₂.GetNumberValueDetails api flag defaultValue evalCtx options s) ∧
    (∀ defaultValue : Any,
        c₁.GetObjectValue api flag defaultValue evalCtx options s
          = c₂.GetObjectValue api flag defaultValue evalCtx options s ∧
        c₁.GetObjectValueDetails api flag defaultValue evalCtx options s
          = c₂.GetObjectValueDetails api flag defaultValue evalCtx options s) ∧
    (∀ (call : Call Hook EvaluationContext EvaluationOption) (st : State σ Hook),
        call.isEvaluation = true →
        (call.run api st).2.client.metadata = st.client.metadata ∧
        (call.run api st).2.client.hooks = st.client.hooks) := by
  refine ⟨fun _ => ⟨rfl, rfl⟩, fun _ => ⟨rfl, rfl⟩, fun _ => ⟨rfl, rfl⟩, fun _ => ⟨rfl, rfl⟩, ?_⟩
  intro call st heval
  cases call with
  | AddHooks hooks => simp [Call.isEvaluation] at heval
  | _ => exact ⟨rfl, rfl⟩

/-- Witness for C10: evaluating `greeting` with details on the client `web`
leaves its name and its two hooks in place while the provider's state moves
on; a fresh client named `mobile` without hooks gets the same answer. -/
theorem evaluation_is_independent_of_client_witness :
    (Call.GetStringValueDetails "greeting" "hi" [] [] :
        Call String (List (String × String)) String).isEvaluation = true ∧
    ((Call.run scenarioAPI (Call.GetStringValueDetails "greeting" "hi" [] [])
        { client := webClient, provider := 0 }).2.client.metadata = { name := "web" } ∧
      (Call.run scenarioAPI (Call.GetStringValueDetails "greeting" "hi" [] [])
        { client := webClient, provider := 0 }).2.client.hooks = ["logging", "metrics"]) ∧
    (Call.run scenarioAPI (Call.GetStringValueDetails "greeting" "hi" [] [])
        { client := webClient, provider := 0 }).2.provider = 1 ∧
    webClient.GetStringValue scenarioAPI "greeting" "hi" [] [] 0
      = (GetClient "mobile" : Client String).GetStringValue scenarioAPI "greeting" "hi" [] [] 0 :=
  ⟨rfl,
    (evaluation_is_independent_of_client scenarioAPI webClient (GetClient "mobile")
      "greeting" [] [] 0).2.2.2.2 (Call.GetStringValueDetails "greeting" "hi" [] [])
      { client := webClient, provider := 0 } rfl,
    rfl, rfl⟩

end Theorems

end openfeature
